import Mathlib

/-!
Verification of the machine-report collection pipeline.

Shallow embedding of the Rust sources under src/: the collector data model
(collectors/mod.rs, cpu.rs, disk.rs, memory.rs, network.rs, session.rs,
platform/mod.rs), the orchestrator SystemInfo::collect_with_mode, and the
pure aggregation helpers. External inputs (sysinfo readings, file contents,
subprocess outputs, environment variables) are modelled as explicit
environment records; u64 arithmetic that can overflow is modelled as Nat
with explicit reduction modulo 2 ^ 64; f64 percentage arithmetic is
modelled exactly over the rationals.
-/

namespace MachineReport

/-- Modulus of the Rust u64 type. Additions of u64 byte counters in the
source wrap modulo this value in release builds. -/
def U64 : Nat := 2 ^ 64

/- ## String utilities

The Rust source manipulates subprocess output with str::lines,
split_whitespace, split, trim, starts_with, contains and parse. These are
re-implemented here by structural recursion over the character list of a
Lean String so that concrete evaluations reduce in the kernel. -/

/-- ASCII whitespace test, modelling the whitespace classes the parsed
subprocess outputs actually contain. -/
def isWsChar (c : Char) : Bool :=
  c = ' ' || c = '\t' || c = '\n' || c = '\r'

/-- Split a character list at every character satisfying p, keeping empty
segments, as Rust str::split does. -/
def splitCharsAux (p : Char → Bool) : List Char → List Char → List (List Char)
  | [], acc => [acc.reverse]
  | c :: rest, acc =>
    if p c then acc.reverse :: splitCharsAux p rest []
    else splitCharsAux p rest (c :: acc)

/-- Split a string at every character satisfying p, keeping empty segments. -/
def splitStr (p : Char → Bool) (s : String) : List String :=
  (splitCharsAux p s.data []).map fun cs => ⟨cs⟩

/-- Rust str::split_whitespace: split on whitespace and drop empty pieces. -/
def splitWhitespace (s : String) : List String :=
  (splitStr isWsChar s).filter fun t => t ≠ ""

/-- Rust str::lines: split on the newline character; a trailing newline
yields no final empty line. -/
def rustLines (s : String) : List String :=
  let ls := splitStr (fun c => c = '\n') s
  if ls.getLast? = some "" then ls.dropLast else ls

/-- Rust str::trim restricted to the ASCII whitespace of isWsChar. -/
def strTrim (s : String) : String :=
  ⟨((s.data.dropWhile isWsChar).reverse.dropWhile isWsChar).reverse⟩

/-- Whether pat occurs as a prefix of the character list. -/
def charsHavePrefix (pat : List Char) (cs : List Char) : Bool :=
  pat.isPrefixOf cs

/-- Rust str::starts_with for string patterns. -/
def strStartsWith (s pat : String) : Bool :=
  charsHavePrefix pat.data s.data

/-- Whether pat occurs as a contiguous sublist of cs. -/
def charsContainSub (pat : List Char) : List Char → Bool
  | [] => pat.isEmpty
  | c :: rest => charsHavePrefix pat (c :: rest) || charsContainSub pat rest

/-- Rust str::contains for string patterns. -/
def strContainsSub (s pat : String) : Bool :=
  charsContainSub pat.data s.data

/-- Numeric value of a decimal digit character. -/
def charDigit? (c : Char) : Option Nat :=
  if '0' ≤ c ∧ c ≤ '9' then some (c.toNat - '0'.toNat) else none

/-- Accumulator loop of the decimal Nat parser. -/
def natOfCharsAux : List Char → Nat → Option Nat
  | [], acc => some acc
  | c :: rest, acc =>
    match charDigit? c with
    | some d => natOfCharsAux rest (acc * 10 + d)
    | none => none

/-- Rust str::parse::<usize> for plain digit strings (the source feeds it
trimmed digit fields; the optional plus sign and overflow failure of the
Rust parser are not exercised by the modelled inputs). -/
def strToNat? (s : String) : Option Nat :=
  if s.data.isEmpty then none else natOfCharsAux s.data 0

/-- Rust Vec::join for strings with a separator. -/
def joinSep (sep : String) : List String → String
  | [] => ""
  | [x] => x
  | x :: y :: rest => x ++ sep ++ joinSep sep (y :: rest)

/-- Parse one nonempty decimal digit group. -/
def digitGroup? (cs : List Char) : Option Nat :=
  if cs.isEmpty then none else natOfCharsAux cs 0

/-- Rust str::parse::<f64> restricted to plain decimal literals: optional
sign, an integer part, and an optional fractional part, evaluated exactly
in the rationals. Exponent, infinity and NaN syntaxes are treated as parse
failures; the claims proved below do not depend on them. -/
def parseDecimal (s : String) : Option ℚ :=
  let signBody : ℚ × List Char :=
    match s.data with
    | c :: rest =>
      if c = '-' then (-1, rest)
      else if c = '+' then (1, rest)
      else (1, s.data)
    | [] => (1, [])
  match splitCharsAux (fun c => c = '.') signBody.2 [] with
  | [ip] => (digitGroup? ip).map fun n => signBody.1 * n
  | [ip, fp] =>
    match digitGroup? ip, digitGroup? fp with
    | some n, some f =>
      some (signBody.1 * ((n : ℚ) + (f : ℚ) / (10 : ℚ) ^ fp.length))
    | _, _ => none
  | _ => none

/- ## Data model (collectors/mod.rs and the per-collector structs) -/

/-- CollectMode from collectors/mod.rs. -/
inductive CollectMode
  | Full
  | Fast
deriving DecidableEq, Repr

/-- Model of error.rs AppError: for the claims only the identity of the
error value matters, so one message-carrying case stands for the enum. -/
structure AppError where
  message : String
deriving DecidableEq, Repr

/-- Result alias of error.rs: Result<T> = Result<T, AppError>. -/
abbrev CResult (α : Type) := Except AppError α

/-- DiskInfo from collectors/disk.rs (byte counters are u64 values). -/
structure DiskInfo where
  mount_point : String
  filesystem : String
  total_bytes : Nat
  available_bytes : Nat
  used_bytes : Nat
  is_removable : Bool
  name : String
deriving DecidableEq, Repr

/-- One entry of the sysinfo disk list as read by disk::collect: the raw
mount point, total and available space (u64), removability flag, filesystem
and name. -/
structure RawDisk where
  mount_point : String
  filesystem : String
  total_space : Nat
  available_space : Nat
  is_removable : Bool
  name : String
deriving DecidableEq, Repr

/-- MemoryInfo from collectors/memory.rs; memory::collect copies the five
sysinfo counters into it unchanged, so the same record doubles as the raw
reading delivered by the OS. -/
structure MemoryInfo where
  total_bytes : Nat
  used_bytes : Nat
  available_bytes : Nat
  swap_total_bytes : Nat
  swap_used_bytes : Nat
deriving DecidableEq, Repr

/-- OsInfo from collectors/os.rs. -/
structure OsInfo where
  name : String
  version : String
  kernel_version : String
  hostname : String
  architecture : String
  uptime_seconds : Nat
deriving DecidableEq, Repr

/-- NetworkInfo as consumed by the orchestrator in collectors/mod.rs, which
stores machine_ip and client_ip into Option-typed Snapshot fields. -/
structure NetworkInfo where
  machine_ip : Option String
  client_ip : Option String
  dns_servers : List String
deriving DecidableEq, Repr

/-- SessionInfo from collectors/session.rs. -/
structure SessionInfo where
  username : String
  home_dir : String
  shell : String
  current_dir : String
  terminal : String
  last_login : Option String
  last_login_ip : Option String
deriving DecidableEq, Repr

/-- PlatformInfo from collectors/platform/mod.rs. -/
structure PlatformInfo where
  desktop_environment : Option String := none
  display_server : Option String := none
  windows_edition : Option String := none
  macos_codename : Option String := none
  boot_mode : Option String := none
  virtualization : Option String := none
  gpus : List String := []
  architecture : Option String := none
  terminal : Option String := none
  shell : Option String := none
  display_resolution : Option String := none
  battery : Option String := none
  locale : Option String := none
deriving DecidableEq, Repr

/-- CpuInfo from collectors/cpu.rs; frequency is u64 MHz, usage and load
figures are f64 values modelled as rationals. -/
structure CpuInfo where
  brand : String
  physical_cores : Nat
  logical_cores : Nat
  sockets : Option Nat
  frequency_mhz : Nat
  usage_percent : ℚ
  load_1m : Option ℚ
  load_5m : Option ℚ
  load_15m : Option ℚ
deriving DecidableEq, Repr

/-- SystemInfo from collectors/mod.rs: the Snapshot record. -/
structure SystemInfo where
  os_name : String
  os_version : String
  kernel : String
  architecture : String
  hostname : String
  machine_ip : Option String
  client_ip : Option String
  dns_servers : List String
  username : String
  processor : String
  cores : Nat
  sockets : Option Nat
  hypervisor : Option String
  cpu_freq_ghz : ℚ
  load_1m : Option ℚ
  load_5m : Option ℚ
  load_15m : Option ℚ
  gpus : List String
  disk_used_bytes : Nat
  disk_total_bytes : Nat
  disk_percent : ℚ
  zfs_health : Option String
  mem_used_bytes : Nat
  mem_total_bytes : Nat
  mem_percent : ℚ
  last_login : Option String
  last_login_ip : Option String
  uptime_seconds : Nat
  shell : Option String
  terminal : Option String
  locale : Option String
  battery : Option String
  mode : CollectMode
deriving DecidableEq, Repr

/- ## Disk collector (collectors/disk.rs) -/

/-- disk::collect body over the refreshed sysinfo disk list: used space is
total.saturating_sub(available) (truncated Nat subtraction is exactly u64
saturating_sub for in-range inputs) and disks with zero total space are
skipped. -/
def diskCollectList (disks : List RawDisk) : List DiskInfo :=
  disks.filterMap fun d =>
    let used := d.total_space - d.available_space
    if d.total_space = 0 then none
    else
      some
        { mount_point := d.mount_point
          filesystem := d.filesystem
          total_bytes := d.total_space
          available_bytes := d.available_space
          used_bytes := used
          is_removable := d.is_removable
          name := d.name }

/-- disk::collect: always returns Ok of the converted list. -/
def diskCollect (disks : List RawDisk) : CResult (List DiskInfo) :=
  .ok (diskCollectList disks)

/- ## Disk aggregation (aggregate_disk_usage in collectors/mod.rs) -/

/-- The primary-volume test of the first loop of aggregate_disk_usage:
mount point "/", "C:\\" or any mount point starting with "C:". -/
def isPrimaryMount (d : DiskInfo) : Bool :=
  d.mount_point = "/" || d.mount_point = "C:\\" || strStartsWith d.mount_point "C:"

/-- One step of the summing loop of aggregate_disk_usage for the used
counter: total_used += d.used_bytes on non-removable disks, with u64
wrap-around. -/
def wrapAddUsed (acc : Nat) (d : DiskInfo) : Nat :=
  if d.is_removable then acc else (acc + d.used_bytes) % U64

/-- One step of the summing loop of aggregate_disk_usage for the size
counter: total_size += d.total_bytes on non-removable disks, with u64
wrap-around. -/
def wrapAddTotal (acc : Nat) (d : DiskInfo) : Nat :=
  if d.is_removable then acc else (acc + d.total_bytes) % U64

/-- aggregate_disk_usage from collectors/mod.rs. The single Rust loop
updates total_used and total_size together; the two folds below perform
the same updates counter by counter. -/
def aggregate_disk_usage (disks : List DiskInfo) : Nat × Nat :=
  match disks.find? isPrimaryMount with
  | some d => (d.used_bytes, d.total_bytes)
  | none =>
    let total_used := disks.foldl wrapAddUsed 0
    let total_size := disks.foldl wrapAddTotal 0
    if total_size = 0 then
      match disks with
      | d :: _ => (d.used_bytes, d.total_bytes)
      | [] => (total_used, total_size)
    else (total_used, total_size)

/-- Spec-side definition, following the words of the specification: the
mathematical (unwrapped) sum of used bytes over all non-removable disks. -/
def sum_used_nonremovable : List DiskInfo → Nat
  | [] => 0
  | d :: rest =>
    (if d.is_removable then 0 else d.used_bytes) + sum_used_nonremovable rest

/-- Spec-side definition, following the words of the specification: the
mathematical (unwrapped) sum of total bytes over all non-removable disks. -/
def sum_total_nonremovable : List DiskInfo → Nat
  | [] => 0
  | d :: rest =>
    (if d.is_removable then 0 else d.total_bytes) + sum_total_nonremovable rest

/- ## Memory collector (collectors/memory.rs) -/

/-- memory::collect: copies the sysinfo counters unchanged and returns Ok. -/
def memoryCollect (reading : MemoryInfo) : CResult MemoryInfo :=
  .ok
    { total_bytes := reading.total_bytes
      used_bytes := reading.used_bytes
      available_bytes := reading.available_bytes
      swap_total_bytes := reading.swap_total_bytes
      swap_used_bytes := reading.swap_used_bytes }

/- ## Orchestrator (SystemInfo::collect_with_mode in collectors/mod.rs) -/

/-- The percentage expression of collect_with_mode, written once for the
disk pair and once for the memory pair in the source: used / total * 100
when total > 0, and 0.0 when total is 0. -/
def percent_of (used total : Nat) : ℚ :=
  if 0 < total then (used : ℚ) / (total : ℚ) * 100 else 0

/-- SystemInfo::collect_with_mode after the join of the seven scoped
threads: the seven collector results are taken as inputs (each thread
captures its Result; the platform collector returns PlatformInfo directly,
not a Result). arch_default stands for the compile-time constant
std::env::consts::ARCH. The six question-mark operators of the source are
the monadic binds below, in source order. -/
def collect_with_mode (mode : CollectMode)
    (os_r : CResult OsInfo) (cpu_r : CResult CpuInfo)
    (mem_r : CResult MemoryInfo) (disks_r : CResult (List DiskInfo))
    (net_r : CResult NetworkInfo) (session_r : CResult SessionInfo)
    (platform_info : PlatformInfo) (arch_default : String) :
    CResult SystemInfo := do
  let os_info ← os_r
  let cpu_info ← cpu_r
  let mem_info ← mem_r
  let disks ← disks_r
  let net_info ← net_r
  let session_info ← session_r
  let agg := aggregate_disk_usage disks
  let disk_percent := percent_of agg.1 agg.2
  let mem_percent := percent_of mem_info.used_bytes mem_info.total_bytes
  let hypervisor :=
    platform_info.virtualization.orElse fun _ =>
      if mode = CollectMode.Full then some "Bare Metal" else none
  .ok
    { os_name := os_info.name
      os_version := os_info.version
      kernel := os_info.kernel_version
      architecture := platform_info.architecture.getD arch_default
      hostname := os_info.hostname
      machine_ip := net_info.machine_ip
      client_ip := net_info.client_ip
      dns_servers := net_info.dns_servers
      username := session_info.username
      processor := cpu_info.brand
      cores := cpu_info.logical_cores
      sockets := cpu_info.sockets
      hypervisor := hypervisor
      cpu_freq_ghz := (cpu_info.frequency_mhz : ℚ) / 1000
      load_1m := cpu_info.load_1m
      load_5m := cpu_info.load_5m
      load_15m := cpu_info.load_15m
      gpus := platform_info.gpus
      disk_used_bytes := agg.1
      disk_total_bytes := agg.2
      disk_percent := disk_percent
      zfs_health := none
      mem_used_bytes := mem_info.used_bytes
      mem_total_bytes := mem_info.total_bytes
      mem_percent := mem_percent
      last_login := session_info.last_login
      last_login_ip := session_info.last_login_ip
      uptime_seconds := os_info.uptime_seconds
      shell := platform_info.shell
      terminal := platform_info.terminal
      locale := platform_info.locale
      battery := platform_info.battery
      mode := mode }

/- ## CPU collector (collectors/cpu.rs, unix / linux build) -/

/-- One sysinfo CPU entry as read by cpu::collect. -/
structure RawCpu where
  brand : String
  frequency_mhz : Nat
  usage : ℚ
deriving DecidableEq, Repr

/-- External inputs of the CPU collector on Linux: the sysinfo CPU table,
the optional physical core count, the content of /proc/loadavg when
readable, the libc getloadavg triple when the call succeeds, and the
stdout of lscpu when the command runs. -/
structure CpuEnv where
  cpus : List RawCpu
  physical_core_count : Option Nat
  loadavg_file : Option String
  libc_loadavg : Option (ℚ × ℚ × ℚ)
  lscpu_output : Option String
deriving DecidableEq, Repr

/-- The lscpu parsing loop of get_socket_count (linux): the first line
starting with "Socket(s):" whose second colon field parses as a number
yields the socket count; otherwise the loop continues. -/
def parseLscpuSockets : List String → Option Nat
  | [] => none
  | line :: rest =>
    if strStartsWith line "Socket(s):" then
      match (splitStr (fun c => c = ':') line).get? 1 with
      | some num =>
        match strToNat? (strTrim num) with
        | some n => some n
        | none => parseLscpuSockets rest
      | none => parseLscpuSockets rest
    else parseLscpuSockets rest

/-- get_socket_count (linux): parse lscpu output, falling back to 1 socket
when the command fails to run or nothing parses. -/
def get_socket_count (env : CpuEnv) : Nat :=
  match env.lscpu_output with
  | some out => (parseLscpuSockets (rustLines out)).getD 1
  | none => 1

/-- The libc getloadavg fallback branch of get_load_averages, followed by
the final (Some 0, Some 0, Some 0) default. -/
def loadavgFallback (core_count : Nat) (env : CpuEnv) :
    Option ℚ × Option ℚ × Option ℚ :=
  match env.libc_loadavg with
  | some (l1, l5, l15) =>
    let max_load : ℚ := (core_count : ℚ)
    (some (min (l1 / max_load * 100) 100),
     some (min (l5 / max_load * 100) 100),
     some (min (l15 / max_load * 100) 100))
  | none => (some 0, some 0, some 0)

/-- get_load_averages on unix (cpu.rs): /proc/loadavg is parsed first; each
of the first three whitespace fields parses as f64 with unwrap_or(0.0), the
loads are normalized by the core count and capped with .min(100.0).
Division by a zero core count, which in f64 produces an infinity that the
cap turns into 100, is modelled by rational division (yielding 0); both
stay within the bound the claim states. The mode argument is unused on
unix. -/
def get_load_averages (_mode : CollectMode) (core_count : Nat)
    (_current_usage : ℚ) (env : CpuEnv) : Option ℚ × Option ℚ × Option ℚ :=
  match env.loadavg_file with
  | some content =>
    let parts := splitWhitespace content
    if 3 ≤ parts.length then
      let load1 := (parseDecimal (parts.getD 0 "")).getD 0
      let load5 := (parseDecimal (parts.getD 1 "")).getD 0
      let load15 := (parseDecimal (parts.getD 2 "")).getD 0
      let max_load : ℚ := (core_count : ℚ)
      (some (min (load1 / max_load * 100) 100),
       some (min (load5 / max_load * 100) 100),
       some (min (load15 / max_load * 100) 100))
    else loadavgFallback core_count env
  | none => loadavgFallback core_count env

/-- cpu::collect (linux build). The full-mode 200ms resample changes only
which instant the sysinfo table reflects, which the environment already
fixes; all derived fields follow the source expressions. -/
def cpuCollect (mode : CollectMode) (env : CpuEnv) : CResult CpuInfo :=
  let cpus := env.cpus
  let physical_cores := env.physical_core_count.getD cpus.length
  let logical_cores := cpus.length
  let brand := ((cpus.head?).map RawCpu.brand).getD "Unknown CPU"
  let frequency_mhz := ((cpus.head?).map RawCpu.frequency_mhz).getD 0
  let usage_percent : ℚ :=
    if cpus.isEmpty then 0
    else (cpus.foldl (fun acc c => acc + c.usage) 0) / (cpus.length : ℚ)
  let loads := get_load_averages mode logical_cores usage_percent env
  let sockets :=
    if mode = CollectMode.Fast then none else some (get_socket_count env)
  .ok
    { brand := brand
      physical_cores := physical_cores
      logical_cores := logical_cores
      sockets := sockets
      frequency_mhz := frequency_mhz
      usage_percent := usage_percent
      load_1m := loads.1
      load_5m := loads.2.1
      load_15m := loads.2.2 }

/- ## Session collector (collectors/session.rs, linux build) -/

/-- Captured output of one subprocess call: exit success and stdout. A
value of none for the whole record models a command that failed to run. -/
structure CmdOutput where
  success : Bool
  stdout : String
deriving DecidableEq, Repr

/-- External inputs of the session collector on Linux: the users-crate
lookup, the USER variable, the home directory, SHELL, the current
directory, the terminal-detection variables, and the outputs of the three
last-login commands. -/
structure SessionEnv where
  users_current : Option String
  user_env : Option String
  home_dir : Option String
  shell_env : Option String
  current_dir : Option String
  term_program : Option String
  wt_session : Option String
  term_env : Option String
  lastlog2_out : Option CmdOutput
  lastlog_out : Option CmdOutput
  last_out : Option CmdOutput
deriving DecidableEq, Repr

/-- get_username (unix): the users crate first, then USER, then Unknown. -/
def get_username (env : SessionEnv) : String :=
  match env.users_current with
  | some u => u
  | none => env.user_env.getD "Unknown"

/-- get_shell (unix): SHELL or Unknown. -/
def get_shell (env : SessionEnv) : String :=
  env.shell_env.getD "Unknown"

/-- get_terminal: TERM_PROGRAM, then a non-empty WT_SESSION, then TERM,
then Unknown on non-Windows builds. -/
def get_terminal (env : SessionEnv) : String :=
  match env.term_program with
  | some tp => tp
  | none =>
    if (match env.wt_session with | some w => w != "" | none => false) then
      "Windows Terminal"
    else
      match env.term_env with
      | some t => t
      | none => "Unknown"

/-- The lastlog2 branch of get_last_login_linux: on success, line 1 of
stdout with at least 4 whitespace fields yields fields 1..3 joined as the
date and field 4 as the ip; every other outcome falls through. -/
def tryLastlog2 (out : Option CmdOutput) : Option (String × Option String) :=
  match out with
  | none => none
  | some o =>
    if o.success then
      match (rustLines o.stdout).get? 1 with
      | some line =>
        let parts := splitWhitespace line
        if 4 ≤ parts.length then
          some (joinSep " " ((parts.drop 1).take 3), parts.get? 4)
        else none
      | none => none
    else none

/-- The lastlog branch of get_last_login_linux: on success, line 1 of
stdout is checked for "Never logged in", else with at least 5 fields,
field 2 is the origin and fields 3.. joined are the date. -/
def tryLastlog (out : Option CmdOutput) : Option (String × Option String) :=
  match out with
  | none => none
  | some o =>
    if o.success then
      match (rustLines o.stdout).get? 1 with
      | some line =>
        if strContainsSub line "Never logged in" then
          some ("Never logged in", none)
        else
          let parts := splitWhitespace line
          if 5 ≤ parts.length then
            some (joinSep " " (parts.drop 3), parts.get? 2)
          else none
      | none => none
    else none

/-- The last-command branch of get_last_login_linux: on success, the first
stdout line not containing "wtmp begins" and non-empty, with at least 5
fields, yields fields 3..min(7,len) joined as the date; field 2 is the
origin unless it names a terminal. -/
def tryLast (out : Option CmdOutput) : Option (String × Option String) :=
  match out with
  | none => none
  | some o =>
    if o.success then
      match (rustLines o.stdout).get? 0 with
      | some line =>
        if ¬ strContainsSub line "wtmp begins" ∧ line ≠ "" then
          let parts := splitWhitespace line
          if 5 ≤ parts.length then
            let fromIp := (parts.get? 2).bind fun s =>
              if strStartsWith s ":" || strStartsWith s "pts" ||
                  strStartsWith s "tty" then none
              else some s
            some (joinSep " " ((parts.drop 3).take (min 7 parts.length - 3)),
              fromIp)
          else none
        else none
      | none => none
    else none

/-- get_last_login_linux: the three command branches in order, with the
"Login tracking unavailable" default when all three fall through. -/
def get_last_login_linux (env : SessionEnv) : String × Option String :=
  match tryLastlog2 env.lastlog2_out with
  | some r => r
  | none =>
    match tryLastlog env.lastlog_out with
    | some r => r
    | none =>
      match tryLast env.last_out with
      | some r => r
      | none => ("Login tracking unavailable", none)

/-- should_skip_last_login_on_platform: false on the linux build (only the
Windows build skips the last-login lookup in fast mode). -/
def should_skip_last_login_on_platform : Bool := false

/-- session::collect (linux build): the last-login lookup is skipped only
when the mode is Fast on a platform that marks it slow; otherwise its
String result is stored wrapped in Some. -/
def sessionCollect (mode : CollectMode) (env : SessionEnv) :
    CResult SessionInfo :=
  let username := get_username env
  let home_dir := env.home_dir.getD "Unknown"
  let shell := get_shell env
  let current_dir := env.current_dir.getD "Unknown"
  let terminal := get_terminal env
  let should_skip :=
    (mode = CollectMode.Fast) && should_skip_last_login_on_platform
  let login_pair :=
    if should_skip then (none, none)
    else
      let r := get_last_login_linux env
      (some r.1, r.2)
  .ok
    { username := username
      home_dir := home_dir
      shell := shell
      current_dir := current_dir
      terminal := terminal
      last_login := login_pair.1
      last_login_ip := login_pair.2 }

/- ## Network collector, DNS list (get_dns_servers_linux in network.rs) -/

/-- External inputs of get_dns_servers_linux: the content of
/etc/resolv.conf when readable and the stdout of resolvectl status when
the command runs (the source does not test its exit status). -/
structure NetworkEnv where
  resolv_conf : Option String
  resolvectl_out : Option String
deriving DecidableEq, Repr

/-- The /etc/resolv.conf loop: each trimmed line starting with
"nameserver" contributes its second whitespace field when unseen, and the
loop breaks once five servers are held. -/
def resolvConfLoop : List String → List String → List String
  | [], servers => servers
  | line :: rest, servers =>
    let line := strTrim line
    if strStartsWith line "nameserver" then
      match (splitWhitespace line).get? 1 with
      | some ip =>
        if servers.contains ip then resolvConfLoop rest servers
        else
          let servers := servers ++ [ip]
          if 5 ≤ servers.length then servers else resolvConfLoop rest servers
      | none => resolvConfLoop rest servers
    else resolvConfLoop rest servers

/-- The inner loop of the resolvectl fallback: unseen addresses of one
"DNS Servers:" line are appended; the break inside it leaves only this
inner loop once five or more servers are held. -/
def resolvectlInner : List String → List String → List String
  | [], servers => servers
  | ip :: rest, servers =>
    if servers.contains ip then resolvectlInner rest servers
    else
      let servers := servers ++ [ip]
      if 5 ≤ servers.length then servers else resolvectlInner rest servers

/-- The outer loop of the resolvectl fallback: every line containing
"DNS Servers:" feeds the whitespace fields of its last colon field to the
inner loop; the outer loop itself never breaks. -/
def resolvectlOuter : List String → List String → List String
  | [], servers => servers
  | line :: rest, servers =>
    if strContainsSub line "DNS Servers:" then
      match (splitStr (fun c => c = ':') line).getLast? with
      | some ips =>
        resolvectlOuter rest (resolvectlInner (splitWhitespace ips) servers)
      | none => resolvectlOuter rest servers
    else resolvectlOuter rest servers

/-- get_dns_servers_linux: the resolv.conf loop, then, only when it found
nothing, the resolvectl fallback. -/
def get_dns_servers_linux (env : NetworkEnv) : List String :=
  let servers : List String :=
    match env.resolv_conf with
    | some content => resolvConfLoop (rustLines content) []
    | none => []
  if servers.isEmpty then
    match env.resolvectl_out with
    | some out => resolvectlOuter (rustLines out) servers
    | none => servers
  else servers

/- ## Sample values used by witnesses and counterexamples -/

/-- A sample OS collector output. -/
def osW : OsInfo :=
  { name := "Ubuntu", version := "24.04", kernel_version := "6.8.0"
    hostname := "host", architecture := "x86_64", uptime_seconds := 3600 }

/-- A sample CPU collector output. -/
def cpuW : CpuInfo :=
  { brand := "Test CPU", physical_cores := 4, logical_cores := 8
    sockets := some 1, frequency_mhz := 2400, usage_percent := 0
    load_1m := some 0, load_5m := some 0, load_15m := some 0 }

/-- A sample memory reading with used below total. -/
def memW : MemoryInfo :=
  { total_bytes := 100, used_bytes := 40, available_bytes := 60
    swap_total_bytes := 0, swap_used_bytes := 0 }

/-- A memory reading in which the OS reports more used than total bytes;
memory::collect copies it unchanged. -/
def memBad : MemoryInfo :=
  { total_bytes := 1, used_bytes := 2, available_bytes := 0
    swap_total_bytes := 0, swap_used_bytes := 0 }

/-- A second such reading, for the snapshot invariant counterexample. -/
def memBad2 : MemoryInfo :=
  { total_bytes := 3, used_bytes := 5, available_bytes := 0
    swap_total_bytes := 0, swap_used_bytes := 0 }

/-- A sample network collector output. -/
def netW : NetworkInfo :=
  { machine_ip := some "10.0.0.2", client_ip := none
    dns_servers := ["1.1.1.1"] }

/-- A sample session collector output. -/
def sessW : SessionInfo :=
  { username := "user", home_dir := "/home/user", shell := "/bin/bash"
    current_dir := "/home/user", terminal := "xterm"
    last_login := some "Jan 1 10:00", last_login_ip := none }

/-- A sample platform record with every optional field absent. -/
def platW : PlatformInfo := {}

/-- A sample collector error. -/
def errW : AppError := { message := "disk collector failed" }

/-- A non-removable, non-primary disk for the tie-break witness. -/
def dW : DiskInfo :=
  { mount_point := "/data", filesystem := "ext4", total_bytes := 50
    available_bytes := 45, used_bytes := 5, is_removable := false
    name := "data" }

/-- A half-range disk record; two of these overflow the u64 total sum. -/
def dBig1 : DiskInfo :=
  { mount_point := "/mnt/a", filesystem := "ext4", total_bytes := 2 ^ 63
    available_bytes := 0, used_bytes := 2 ^ 63, is_removable := false
    name := "a" }

/-- A second half-range disk record on another mount point. -/
def dBig2 : DiskInfo :=
  { mount_point := "/mnt/b", filesystem := "ext4", total_bytes := 2 ^ 63
    available_bytes := 0, used_bytes := 2 ^ 63, is_removable := false
    name := "b" }

/-- A raw sysinfo disk entry for the root filesystem. -/
def rawRootW : RawDisk :=
  { mount_point := "/", filesystem := "ext4", total_space := 100
    available_space := 60, is_removable := false, name := "root" }

/-- A CPU environment whose lscpu output reports two sockets. -/
def cpuEnvW : CpuEnv :=
  { cpus := [{ brand := "Test CPU", frequency_mhz := 2400, usage := 0 }]
    physical_core_count := some 1
    loadavg_file := some "0.52 0.58 0.59 1/389 2384"
    libc_loadavg := none
    lscpu_output := some "Architecture: x86_64\nSocket(s): 2\n" }

/-- A session environment in which all three last-login commands failed to
run. -/
def sessEnvFail : SessionEnv :=
  { users_current := some "root", user_env := none, home_dir := some "/root"
    shell_env := some "/bin/bash", current_dir := some "/root"
    term_program := none, wt_session := none, term_env := some "xterm"
    lastlog2_out := none, lastlog_out := none, last_out := none }

/-- A network environment with an empty resolv.conf and a resolvectl
status output carrying six distinct addresses on two lines. -/
def dnsEnvSix : NetworkEnv :=
  { resolv_conf := some ""
    resolvectl_out :=
      some
        "DNS Servers: 1.1.1.1 2.2.2.2 3.3.3.3 4.4.4.4 5.5.5.5\nDNS Servers: 6.6.6.6" }

/- ## Helper lemmas -/

/-- The used-counter loop of aggregate_disk_usage computes the plain sum
whenever the accumulated sum stays below the u64 modulus. -/
theorem foldl_wrapAddUsed_eq (l : List DiskInfo) (acc : Nat)
    (h : acc + sum_used_nonremovable l < U64) :
    l.foldl wrapAddUsed acc = acc + sum_used_nonremovable l := by
  induction l generalizing acc with
  | nil => simp [sum_used_nonremovable]
  | cons d rest ih =>
    by_cases hd : d.is_removable
    · have hs : sum_used_nonremovable (d :: rest) = sum_used_nonremovable rest := by
        simp [sum_used_nonremovable, hd]
      rw [hs] at h
      simpa [wrapAddUsed, hd, hs] using ih acc h
    · have hs : sum_used_nonremovable (d :: rest) =
          d.used_bytes + sum_used_nonremovable rest := by
        simp [sum_used_nonremovable, hd]
      rw [hs] at h
      have hlt : acc + d.used_bytes < U64 := by omega
      have hstep : wrapAddUsed acc d = acc + d.used_bytes := by
        simp [wrapAddUsed, hd, Nat.mod_eq_of_lt hlt]
      have := ih (acc + d.used_bytes) (by omega)
      simp only [List.foldl_cons, hstep, this, hs]
      omega

/-- The size-counter loop of aggregate_disk_usage computes the plain sum
whenever the accumulated sum stays below the u64 modulus. -/
theorem foldl_wrapAddTotal_eq (l : List DiskInfo) (acc : Nat)
    (h : acc + sum_total_nonremovable l < U64) :
    l.foldl wrapAddTotal acc = acc + sum_total_nonremovable l := by
  induction l generalizing acc with
  | nil => simp [sum_total_nonremovable]
  | cons d rest ih =>
    by_cases hd : d.is_removable
    · have hs : sum_total_nonremovable (d :: rest) = sum_total_nonremovable rest := by
        simp [sum_total_nonremovable, hd]
      rw [hs] at h
      simpa [wrapAddTotal, hd, hs] using ih acc h
    · have hs : sum_total_nonremovable (d :: rest) =
          d.total_bytes + sum_total_nonremovable rest := by
        simp [sum_total_nonremovable, hd]
      rw [hs] at h
      have hlt : acc + d.total_bytes < U64 := by omega
      have hstep : wrapAddTotal acc d = acc + d.total_bytes := by
        simp [wrapAddTotal, hd, Nat.mod_eq_of_lt hlt]
      have := ih (acc + d.total_bytes) (by omega)
      simp only [List.foldl_cons, hstep, this, hs]
      omega

/-- Pointwise used-below-total carries over to the non-removable sums. -/
theorem sum_used_le_sum_total (l : List DiskInfo)
    (hd : ∀ d ∈ l, d.used_bytes ≤ d.total_bytes) :
    sum_used_nonremovable l ≤ sum_total_nonremovable l := by
  induction l with
  | nil => simp [sum_used_nonremovable, sum_total_nonremovable]
  | cons d rest ih =>
    have h1 := hd d (by simp)
    have h2 := ih fun x hx => hd x (by simp [hx])
    by_cases hr : d.is_removable <;>
      simp [sum_used_nonremovable, sum_total_nonremovable, hr] <;> omega

/-- Every disk record disk::collect produces has its used bytes, computed
by saturating subtraction, below its total bytes. -/
theorem diskCollectList_used_le (raw : List RawDisk) :
    ∀ d ∈ diskCollectList raw, d.used_bytes ≤ d.total_bytes := by
  intro d hd
  simp only [diskCollectList, List.mem_filterMap] at hd
  obtain ⟨r, _, hr⟩ := hd
  by_cases h0 : r.total_space = 0
  · simp [h0] at hr
  · simp only [h0, if_false] at hr
    cases hr
    exact Nat.sub_le _ _

/-- The pair aggregate_disk_usage returns is ordered whenever every disk
is ordered and the non-removable total sum does not overflow u64. -/
theorem aggregate_fst_le_snd (disks : List DiskInfo)
    (hd : ∀ d ∈ disks, d.used_bytes ≤ d.total_bytes)
    (hs : sum_total_nonremovable disks < U64) :
    (aggregate_disk_usage disks).1 ≤ (aggregate_disk_usage disks).2 := by
  unfold aggregate_disk_usage
  cases hfind : disks.find? isPrimaryMount with
  | some d =>
    exact hd d (List.mem_of_find?_eq_some hfind)
  | none =>
    have hUsum : sum_used_nonremovable disks ≤ sum_total_nonremovable disks :=
      sum_used_le_sum_total disks hd
    have hU : disks.foldl wrapAddUsed 0 = sum_used_nonremovable disks := by
      simpa using foldl_wrapAddUsed_eq disks 0 (by omega)
    have hT : disks.foldl wrapAddTotal 0 = sum_total_nonremovable disks := by
      simpa using foldl_wrapAddTotal_eq disks 0 (by omega)
    simp only [hU, hT]
    by_cases h0 : sum_total_nonremovable disks = 0
    · simp only [h0, if_pos rfl]
      cases disks with
      | nil => simp [sum_used_nonremovable]
      | cons d rest => exact hd d (by simp)
    · simp only [h0, if_neg h0]
      exact hUsum

/-- percent_of never goes below zero. -/
theorem percent_of_nonneg (u t : Nat) : 0 ≤ percent_of u t := by
  unfold percent_of
  split
  · positivity
  · exact le_refl 0

/-- percent_of is zero on a zero total. -/
theorem percent_of_zero_total (u : Nat) : percent_of u 0 = 0 := by
  simp [percent_of]

/-- percent_of stays below one hundred when used is below total. -/
theorem percent_of_le_100 (u t : Nat) (h : u ≤ t) : percent_of u t ≤ 100 := by
  unfold percent_of
  split
  · rename_i ht
    have ht' : (0 : ℚ) < (t : ℚ) := by exact_mod_cast ht
    have h1 : (u : ℚ) / (t : ℚ) ≤ 1 := by
      rw [div_le_one ht']
      exact_mod_cast h
    calc (u : ℚ) / (t : ℚ) * 100 ≤ 1 * 100 := by
          exact mul_le_mul_of_nonneg_right h1 (by norm_num)
      _ = 100 := by norm_num
  · norm_num

/- ## Claim theorems -/

/-- Claim C3 (amended): tie-break order of aggregate_disk_usage. For every
list of disk records whose non-removable used and total byte sums stay
below 2 ^ 64 (the u64 counters of the source wrap otherwise): when some
disk has the root or C: mount point, the result is the used and total
bytes of such a disk; otherwise, when the non-removable total sum is not
zero, the result is the pair of non-removable sums; otherwise, for a
non-empty list, the result is the first disk of the list. -/
theorem aggregate_disk_usage_tiebreak (disks : List DiskInfo)
    (hU : sum_used_nonremovable disks < U64)
    (hT : sum_total_nonremovable disks < U64) :
    ((∃ d ∈ disks, isPrimaryMount d = true) →
      ∃ d ∈ disks, isPrimaryMount d = true ∧
        aggregate_disk_usage disks = (d.used_bytes, d.total_bytes)) ∧
    ((∀ d ∈ disks, isPrimaryMount d = false) →
      sum_total_nonremovable disks ≠ 0 →
      aggregate_disk_usage disks =
        (sum_used_nonremovable disks, sum_total_nonremovable disks)) ∧
    (∀ d0 rest, disks = d0 :: rest →
      (∀ d ∈ disks, isPrimaryMount d = false) →
      sum_total_nonremovable disks = 0 →
      aggregate_disk_usage disks = (d0.used_bytes, d0.total_bytes)) := by
  have hfoldU : disks.foldl wrapAddUsed 0 = sum_used_nonremovable disks := by
    simpa using foldl_wrapAddUsed_eq disks 0 (by omega)
  have hfoldT : disks.foldl wrapAddTotal 0 = sum_total_nonremovable disks := by
    simpa using foldl_wrapAddTotal_eq disks 0 (by omega)
  refine ⟨?_, ?_, ?_⟩
  · rintro ⟨d, hdmem, hdp⟩
    cases hfind : disks.find? isPrimaryMount with
    | some dp =>
      refine ⟨dp, List.mem_of_find?_eq_some hfind, List.find?_some hfind, ?_⟩
      unfold aggregate_disk_usage
      simp [hfind]
    | none =>
      rw [List.find?_eq_none] at hfind
      exact absurd hdp (by simpa using hfind d hdmem)
  · intro hnone h0
    have hfind : disks.find? isPrimaryMount = none :=
      List.find?_eq_none.mpr fun x hx => by simp [hnone x hx]
    unfold aggregate_disk_usage
    simp only [hfind, hfoldU, hfoldT, if_neg h0]
  · intro d0 rest hcons hnone h0
    have hfind : disks.find? isPrimaryMount = none :=
      List.find?_eq_none.mpr fun x hx => by simp [hnone x hx]
    unfold aggregate_disk_usage
    simp only [hfind, hfoldU, hfoldT, h0, if_pos rfl]
    rw [hcons]
    simp

/-- Claim C3 counterexample: with two non-removable half-range disks the
u64 size counter wraps to zero, so the first-disk fallback fires even
though the mathematical non-removable total sum is 2 ^ 64, not zero, and
the result differs from the pair of sums the claim demands. -/
theorem aggregate_disk_usage_overflow_cex :
    (∀ d ∈ [dBig1, dBig2], isPrimaryMount d = false) ∧
    sum_total_nonremovable [dBig1, dBig2] ≠ 0 ∧
    aggregate_disk_usage [dBig1, dBig2] = (2 ^ 63, 2 ^ 63) ∧
    aggregate_disk_usage [dBig1, dBig2] ≠
      (sum_used_nonremovable [dBig1, dBig2],
        sum_total_nonremovable [dBig1, dBig2]) := by decide

/-- Claim C3 witness: on one non-removable non-primary disk both overflow
hypotheses hold and the sum rule applies. -/
theorem aggregate_disk_usage_tiebreak_witness :
    sum_used_nonremovable [dW] < U64 ∧ sum_total_nonremovable [dW] < U64 ∧
    aggregate_disk_usage [dW] =
      (sum_used_nonremovable [dW], sum_total_nonremovable [dW]) :=
  ⟨by decide, by decide,
    (aggregate_disk_usage_tiebreak [dW] (by decide) (by decide)).2.1
      (by decide) (by decide)⟩

/-- Claim C4: the socket field of the CPU collector is None exactly in
fast mode, and in full mode it is Some of the socket-count probe result
(which always succeeds, falling back to 1). -/
theorem cpu_sockets_mode (mode : CollectMode) (env : CpuEnv) :
    ∃ info, cpuCollect mode env = .ok info ∧
      (info.sockets = none ↔ mode = CollectMode.Fast) ∧
      (mode = CollectMode.Full → info.sockets = some (get_socket_count env)) := by
  refine ⟨_, rfl, ?_, ?_⟩
  · cases mode <;> simp
  · intro hm
    subst hm
    simp

/-- Claim C4 witness: in full mode with an lscpu output reporting two
sockets the field is Some 2, and in fast mode it is None. -/
theorem cpu_sockets_mode_witness :
    (∃ info, cpuCollect CollectMode.Full cpuEnvW = .ok info ∧
      info.sockets = some 2) ∧
    (∃ info, cpuCollect CollectMode.Fast cpuEnvW = .ok info ∧
      info.sockets = none) := by
  constructor
  · obtain ⟨info, h, _, hfull⟩ := cpu_sockets_mode CollectMode.Full cpuEnvW
    refine ⟨info, h, ?_⟩
    rw [hfull rfl]
    decide
  · obtain ⟨info, h, hiff, _⟩ := cpu_sockets_mode CollectMode.Fast cpuEnvW
    exact ⟨info, h, hiff.mpr rfl⟩

/-- Claim C7: on the unix build the CPU collector returns Some for all
three load averages in both modes, each value normalized against the
logical core count and capped at one hundred. -/
theorem cpu_load_averages_posix (mode : CollectMode) (env : CpuEnv) :
    ∃ info l1 l5 l15, cpuCollect mode env = .ok info ∧
      info.load_1m = some l1 ∧ info.load_5m = some l5 ∧
      info.load_15m = some l15 ∧ l1 ≤ 100 ∧ l5 ≤ 100 ∧ l15 ≤ 100 := by
  have hgen : ∀ cc : Nat, ∀ usage : ℚ,
      ∃ l1 l5 l15, get_load_averages mode cc usage env = (some l1, some l5, some l15) ∧
        l1 ≤ 100 ∧ l5 ≤ 100 ∧ l15 ≤ 100 := by
    intro cc usage
    have hfb : ∃ l1 l5 l15,
        loadavgFallback cc env = (some l1, some l5, some l15) ∧
        l1 ≤ 100 ∧ l5 ≤ 100 ∧ l15 ≤ 100 := by
      unfold loadavgFallback
      cases env.libc_loadavg with
      | none => exact ⟨0, 0, 0, rfl, by norm_num, by norm_num, by norm_num⟩
      | some t =>
        obtain ⟨a, b, c⟩ := t
        exact ⟨_, _, _, rfl, min_le_right _ _, min_le_right _ _, min_le_right _ _⟩
    unfold get_load_averages
    cases env.loadavg_file with
    | none => exact hfb
    | some content =>
      by_cases h3 : 3 ≤ (splitWhitespace content).length
      · simp only [if_pos h3]
        exact ⟨_, _, _, rfl, min_le_right _ _, min_le_right _ _, min_le_right _ _⟩
      · simp only [if_neg h3]
        exact hfb
  obtain ⟨l1, l5, l15, heq, h1, h5, h15⟩ :=
    hgen env.cpus.length
      (if env.cpus.isEmpty then 0
       else (env.cpus.foldl (fun acc c => acc + c.usage) 0) / (env.cpus.length : ℚ))
  refine ⟨_, l1, l5, l15, rfl, ?_, ?_, ?_, h1, h5, h15⟩
  · exact congrArg (fun p => p.1) heq
  · exact congrArg (fun p => p.2.1) heq
  · exact congrArg (fun p => p.2.2) heq

/-- Claim C10: the hypervisor label of the snapshot is the detected
virtualization when present; otherwise it is Some Bare Metal in full mode
and None in fast mode. -/
theorem snapshot_hypervisor_label (mode : CollectMode) (os : OsInfo)
    (cpu : CpuInfo) (mem : MemoryInfo) (disks : List DiskInfo)
    (net : NetworkInfo) (sess : SessionInfo) (plat : PlatformInfo)
    (arch : String) :
    ∃ s, collect_with_mode mode (.ok os) (.ok cpu) (.ok mem) (.ok disks)
        (.ok net) (.ok sess) plat arch = .ok s ∧
      (plat.virtualization = none →
        s.hypervisor =
          if mode = CollectMode.Full then some "Bare Metal" else none) ∧
      (∀ v, plat.virtualization = some v → s.hypervisor = some v) := by
  refine ⟨_, rfl, ?_, ?_⟩
  · intro h
    show plat.virtualization.orElse _ = _
    rw [h]
    rfl
  · intro v h
    show plat.virtualization.orElse _ = _
    rw [h]
    rfl

/-- Claim C10 witness: with no virtualization detected the label is
Some Bare Metal in full mode and None in fast mode. -/
theorem snapshot_hypervisor_label_witness :
    (∃ s, collect_with_mode CollectMode.Full (.ok osW) (.ok cpuW) (.ok memW)
        (.ok []) (.ok netW) (.ok sessW) platW "x86_64" = .ok s ∧
      s.hypervisor = some "Bare Metal") ∧
    (∃ s, collect_with_mode CollectMode.Fast (.ok osW) (.ok cpuW) (.ok memW)
        (.ok []) (.ok netW) (.ok sessW) platW "x86_64" = .ok s ∧
      s.hypervisor = none) := by
  constructor
  · obtain ⟨s, h, h1, _⟩ :=
      snapshot_hypervisor_label CollectMode.Full osW cpuW memW [] netW sessW
        platW "x86_64"
    exact ⟨s, h, by rw [h1 rfl]; rfl⟩
  · obtain ⟨s, h, h1, _⟩ :=
      snapshot_hypervisor_label CollectMode.Fast osW cpuW memW [] netW sessW
        platW "x86_64"
    exact ⟨s, h, by rw [h1 rfl]; rfl⟩

/-- Claim C9: at the failing input the Linux DNS lookup returns six
servers. The resolv.conf loop caps the list at five, but the break of the
resolvectl fallback only leaves the inner per-line loop, so every further
line containing DNS Servers appends one more address past the cap. -/
theorem dns_servers_exceed_cap :
    get_dns_servers_linux dnsEnvSix =
      ["1.1.1.1", "2.2.2.2", "3.3.3.3", "4.4.4.4", "5.5.5.5", "6.6.6.6"] ∧
    5 < (get_dns_servers_linux dnsEnvSix).length := by decide

/-- Claim C1 (amended): collect_with_mode produces a Snapshot exactly when
all six Result-returning collectors succeed. An OS, CPU or memory error
aborts collection as claimed, but a disk, network or session error aborts
it as well — the question-mark operators after the join propagate all six
results. Only the platform-extended collector cannot fail, since it
returns its record directly, so no optional-degradation path exists. -/
theorem collect_ok_iff_all_collectors_ok (mode : CollectMode)
    (os_r : CResult OsInfo) (cpu_r : CResult CpuInfo)
    (mem_r : CResult MemoryInfo) (disks_r : CResult (List DiskInfo))
    (net_r : CResult NetworkInfo) (session_r : CResult SessionInfo)
    (plat : PlatformInfo) (arch : String) :
    (∃ s, collect_with_mode mode os_r cpu_r mem_r disks_r net_r session_r
        plat arch = .ok s) ↔
      ((∃ x, os_r = .ok x) ∧ (∃ x, cpu_r = .ok x) ∧ (∃ x, mem_r = .ok x) ∧
       (∃ x, disks_r = .ok x) ∧ (∃ x, net_r = .ok x) ∧
       (∃ x, session_r = .ok x)) := by
  cases os_r <;> cases cpu_r <;> cases mem_r <;> cases disks_r <;>
    cases net_r <;> cases session_r <;>
    first
      | (refine iff_of_false (fun hc => ?_) (by simp)
         obtain ⟨s, h⟩ := hc
         exact Except.noConfusion h)
      | exact iff_of_true ⟨_, rfl⟩
          ⟨⟨_, rfl⟩, ⟨_, rfl⟩, ⟨_, rfl⟩, ⟨_, rfl⟩, ⟨_, rfl⟩, ⟨_, rfl⟩⟩

/-- Claim C1 counterexample: with every collector succeeding except the
disk collector, collect_with_mode returns the disk error and produces no
Snapshot, where the claim promises a complete Snapshot with empty disk
fields. -/
theorem collect_disk_error_aborts_cex :
    collect_with_mode CollectMode.Full (.ok osW) (.ok cpuW) (.ok memW)
        (.error errW) (.ok netW) (.ok sessW) platW "x86_64" = .error errW ∧
    ∀ s, collect_with_mode CollectMode.Full (.ok osW) (.ok cpuW) (.ok memW)
        (.error errW) (.ok netW) (.ok sessW) platW "x86_64" ≠ .ok s := by
  refine ⟨rfl, fun s h => ?_⟩
  exact Except.noConfusion h

/-- Claim C2 (amended): both snapshot percentages are percent_of of the
corresponding used and total bytes; percent_of is never negative and is
zero on a zero total, and it is at most one hundred whenever used is at
most total. The raw memory reading is copied unchecked, so the upper bound
for the memory percentage holds only under that ordering hypothesis. -/
theorem collect_percentages (mode : CollectMode) (os : OsInfo)
    (cpu : CpuInfo) (mem : MemoryInfo) (disks : List DiskInfo)
    (net : NetworkInfo) (sess : SessionInfo) (plat : PlatformInfo)
    (arch : String) :
    ∃ s, collect_with_mode mode (.ok os) (.ok cpu) (memoryCollect mem)
        (.ok disks) (.ok net) (.ok sess) plat arch = .ok s ∧
      s.disk_percent = percent_of s.disk_used_bytes s.disk_total_bytes ∧
      s.mem_percent = percent_of s.mem_used_bytes s.mem_total_bytes ∧
      (∀ u t : Nat, 0 ≤ percent_of u t ∧ (t = 0 → percent_of u t = 0) ∧
        (u ≤ t → percent_of u t ≤ 100)) := by
  refine ⟨_, rfl, rfl, rfl, fun u t => ⟨percent_of_nonneg u t, ?_, percent_of_le_100 u t⟩⟩
  intro ht
  rw [ht]
  exact percent_of_zero_total u

/-- Claim C2 counterexample: a memory reading of 2 used and 1 total bytes
flows through collect_with_mode into a memory percentage of 200, violating
the claimed upper bound of one hundred. -/
theorem collect_mem_percent_over_100_cex :
    ∃ s, collect_with_mode CollectMode.Full (.ok osW) (.ok cpuW)
        (memoryCollect memBad) (.ok []) (.ok netW) (.ok sessW) platW
        "x86_64" = .ok s ∧
      s.mem_percent = 200 ∧ ¬ s.mem_percent ≤ 100 := by
  refine ⟨_, rfl, ?_, ?_⟩
  · show percent_of memBad.used_bytes memBad.total_bytes = 200
    norm_num [percent_of, memBad]
  · show ¬ percent_of memBad.used_bytes memBad.total_bytes ≤ 100
    norm_num [percent_of, memBad]

/-- Claim C2 witness: at used 40 of total 100 the bound hypotheses hold
and the percentage lies between zero and one hundred. -/
theorem collect_percentages_witness :
    (40 : Nat) ≤ 100 ∧ 0 ≤ percent_of 40 100 ∧ percent_of 40 100 ≤ 100 := by
  obtain ⟨s, _, _, _, h⟩ :=
    collect_percentages CollectMode.Full osW cpuW memW [] netW sessW platW
      "x86_64"
  exact ⟨by norm_num, (h 40 100).1, (h 40 100).2.2 (by norm_num)⟩

/-- Claim C5 (amended): on the linux build the last-login lookup is never
skipped (only the Windows build marks it slow for fast mode); when every
command branch of the lookup falls through, the field holds
Some "Login tracking unavailable" with an absent ip — a placeholder value
the report renders, not an absent field. -/
theorem session_last_login_total_failure (mode : CollectMode)
    (env : SessionEnv)
    (h2 : tryLastlog2 env.lastlog2_out = none)
    (h3 : tryLastlog env.lastlog_out = none)
    (h4 : tryLast env.last_out = none) :
    ∃ info, sessionCollect mode env = .ok info ∧
      info.last_login = some "Login tracking unavailable" ∧
      info.last_login_ip = none := by
  have hll : get_last_login_linux env = ("Login tracking unavailable", none) := by
    unfold get_last_login_linux
    rw [h2, h3, h4]
  refine ⟨_, rfl, ?_, ?_⟩ <;>
    simp [sessionCollect, should_skip_last_login_on_platform, hll]

/-- Claim C5 counterexample: in the environment where all three last-login
commands failed to run, the session collector stores the placeholder
string instead of leaving the field absent. -/
theorem session_last_login_placeholder_cex :
    ∃ info, sessionCollect CollectMode.Full sessEnvFail = .ok info ∧
      info.last_login = some "Login tracking unavailable" ∧
      info.last_login ≠ none := by
  refine ⟨_, rfl, ?_, ?_⟩ <;> decide

/-- Claim C5 witness: the failure environment satisfies the three
fall-through hypotheses, in fast mode as well. -/
theorem session_last_login_total_failure_witness :
    tryLastlog2 sessEnvFail.lastlog2_out = none ∧
    tryLastlog sessEnvFail.lastlog_out = none ∧
    tryLast sessEnvFail.last_out = none ∧
    ∃ info, sessionCollect CollectMode.Fast sessEnvFail = .ok info ∧
      info.last_login = some "Login tracking unavailable" ∧
      info.last_login_ip = none :=
  ⟨rfl, rfl, rfl,
    session_last_login_total_failure CollectMode.Fast sessEnvFail rfl rfl rfl⟩

/-- Claim C6 (amended): every Snapshot built from an actual disk collector
output whose non-removable total sum stays below 2 ^ 64, and from a memory
reading that itself reports used at most total, satisfies both
used-at-most-total byte invariants. The disk half needs no assumption on
the raw entries beyond the overflow bound, since disk::collect derives
used bytes by saturating subtraction; the memory half is only as good as
the reading, which memory::collect copies unchecked. -/
theorem snapshot_used_le_total (mode : CollectMode) (os : OsInfo)
    (cpu : CpuInfo) (mem : MemoryInfo) (raw : List RawDisk)
    (net : NetworkInfo) (sess : SessionInfo) (plat : PlatformInfo)
    (arch : String)
    (hmem : mem.used_bytes ≤ mem.total_bytes)
    (hsum : sum_total_nonremovable (diskCollectList raw) < U64) :
    ∃ s, collect_with_mode mode (.ok os) (.ok cpu) (memoryCollect mem)
        (diskCollect raw) (.ok net) (.ok sess) plat arch = .ok s ∧
      s.disk_used_bytes ≤ s.disk_total_bytes ∧
      s.mem_used_bytes ≤ s.mem_total_bytes := by
  refine ⟨_, rfl, ?_, hmem⟩
  exact aggregate_fst_le_snd (diskCollectList raw)
    (diskCollectList_used_le raw) hsum

/-- Claim C6 counterexample: a memory reading of 5 used and 3 total bytes
is copied into the Snapshot unchecked, violating the memory half of the
claimed invariant. -/
theorem snapshot_mem_used_gt_total_cex :
    ∃ s, collect_with_mode CollectMode.Full (.ok osW) (.ok cpuW)
        (memoryCollect memBad2) (diskCollect []) (.ok netW) (.ok sessW)
        platW "x86_64" = .ok s ∧
      s.mem_used_bytes = 5 ∧ s.mem_total_bytes = 3 ∧
      ¬ s.mem_used_bytes ≤ s.mem_total_bytes :=
  ⟨_, rfl, rfl, rfl, by decide⟩

/-- Claim C6 witness: a root disk of 100 bytes with 60 available and the
sample memory reading give a Snapshot satisfying both invariants. -/
theorem snapshot_used_le_total_witness :
    memW.used_bytes ≤ memW.total_bytes ∧
    sum_total_nonremovable (diskCollectList [rawRootW]) < U64 ∧
    ∃ s, collect_with_mode CollectMode.Full (.ok osW) (.ok cpuW)
        (memoryCollect memW) (diskCollect [rawRootW]) (.ok netW) (.ok sessW)
        platW "x86_64" = .ok s ∧
      s.disk_used_bytes ≤ s.disk_total_bytes ∧
      s.mem_used_bytes ≤ s.mem_total_bytes :=
  ⟨by decide, by decide,
    snapshot_used_le_total CollectMode.Full osW cpuW memW [rawRootW] netW
      sessW platW "x86_64" (by decide) (by decide)⟩

end MachineReport
